import Mathlib

/-!
Shallow embedding of src/storage/miner.go (package storage of the lotus
repository): the storage-miner lifecycle controller (`Miner.Run`,
`Miner.Stop`, `runPreflightChecks`, the `fillData` capacity-filler tick)
and the Election-PoSt adapter (`SectorBuilderEpp.GenerateCandidates`,
`SectorBuilderEpp.ComputeProof`).

External collaborators (the chain/wallet API `storageMinerApi` and the
sector builder `sectorbuilder.Interface`) are modelled as records of
oracles: each call the embedded code makes is a pure function application
on the oracle, and the arguments of every sector-service call are recorded
in an explicit call list so that claims about "what was forwarded" and
"what was never invoked" are statable.

Go error values are modelled by the inductive `GoError`: `newErr` is
`errors.New`, `wrapErr msg inner` is `xerrors.Errorf("msg: %w", inner)`
(the only wrapping construct used in the file), and the remaining
constructors stand for underlying errors produced by the external
boundaries (chain client, sector service, context cancellation).

Panics of the Go runtime (nil-pointer dereference, closing a closed
channel) are modelled as an explicit `StopOutcome.panicked` result, since
`Miner.Stop` is reachable in states where the source panics.
-/

namespace StorageMiner

/-- Addresses (`address.Address`), abstract; `0` plays the role of the Go
zero value an `address.Address` field holds before it is assigned. -/
abbrev Address := Nat

/-- Byte strings (`[]byte`), as lists of byte values. -/
abbrev Bytes := List Nat

/-- `sectorbuilder.SortedPublicSectorInfo`, abstract: the adapter only
forwards it. -/
abbrev SortedPublicSectorInfo := Nat

/-- `sectorbuilder.EPostCandidate`, abstract: the adapter only forwards
candidates. -/
abbrev EPostCandidate := Nat

/-- Go error values as constructed or propagated by miner.go.
`wrapErr msg inner` models `xerrors.Errorf("msg: %w", inner)`;
`newErr msg` models `errors.New(msg)`; `chainErr`, `svcErr` and `ctxErr`
are abstract underlying errors of the chain client, the sector service and
a cancelled/expired `context.Context` respectively. -/
inductive GoError where
  | chainErr (code : Nat)
  | svcErr (code : Nat)
  | ctxErr (code : Nat)
  | newErr (msg : String)
  | wrapErr (msg : String) (inner : GoError)
deriving DecidableEq, Repr

/-- Whether an error is a wrapper produced by `xerrors.Errorf("...: %w", e)`
around some inner error. -/
def GoError.isWrap : GoError → Bool
  | .wrapErr _ _ => true
  | _ => false

/-- The part of the `storageMinerApi` interface exercised by the embedded
code paths: `StateMinerWorker` (chain query for the worker address of a
miner actor) and `WalletHas` (local wallet key presence). Each is an
oracle fixing the outcome of the call. -/
structure StorageMinerApi where
  stateMinerWorker : Address → Except GoError Address
  walletHas : Address → Except GoError Bool

/-- The part of `sectorbuilder.Interface` exercised by the embedded code:
capacity signal (`GetFreeWorkers`, `Busy`) and the two proving calls.
The capacity signal is the snapshot a single tick observes. -/
structure SectorBuilder where
  getFreeWorkers : Nat
  busy : Bool
  generateEPostCandidates :
      SortedPublicSectorInfo → Bytes → List Nat → Except GoError (List EPostCandidate)
  computeElectionPoSt :
      SortedPublicSectorInfo → Bytes → List EPostCandidate → Except GoError Bytes

/-- A recorded call on the sector-service boundary, with the exact
arguments that were passed. -/
inductive SbCall where
  | genCandidates (ssi : SortedPublicSectorInfo) (rand : Bytes) (faults : List Nat)
  | computePoSt (ssi : SortedPublicSectorInfo) (rand : Bytes) (winners : List EPostCandidate)
deriving DecidableEq, Repr

/-- Observable actions of the lifecycle code, used to state ordering
properties of `Miner.Stop` and pledge counts of a `fillData` tick. -/
inductive Action where
  | queryCapacity
  | pledgeSector
  | stopTicker
  | closeStopChannel
  | waitForLoops
  | sealingStop
deriving DecidableEq, Repr

/-- The mutable fields of `storage.Miner` relevant to the embedded code.
`dataTikerSet` is whether `m.dataTiker` is non-nil (it is assigned only by
a successful `Run`); `sealingSet` likewise for `m.sealing`; `stopClosed`
is whether `close(m.stop)` has already happened. -/
structure Miner where
  maddr : Address
  worker : Address
  dataTikerSet : Bool
  sealingSet : Bool
  stopClosed : Bool
deriving DecidableEq, Repr

/-- `NewMiner`: fields not set by the constructor hold Go zero values. -/
def Miner.new (addr : Address) : Miner :=
  { maddr := addr, worker := 0, dataTikerSet := false, sealingSet := false, stopClosed := false }

/-- `(*Miner).runPreflightChecks`: query `StateMinerWorker` for the worker
address of `m.maddr`; on success assign `m.worker = worker` (this happens
before the wallet check), then query `WalletHas(worker)`. The chain-query
error is returned as-is; a `WalletHas` error is wrapped with
"failed to check wallet for worker key"; an absent key yields
`errors.New("key for worker not found in local wallet")`. Returns the
result together with the updated miner state. -/
def Miner.runPreflightChecks (api : StorageMinerApi) (m : Miner) :
    Except GoError Unit × Miner :=
  match api.stateMinerWorker m.maddr with
  | .error e => (.error e, m)
  | .ok worker =>
    match api.walletHas worker with
    | .error e =>
        (.error (.wrapErr "failed to check wallet for worker key" e), { m with worker := worker })
    | .ok has =>
        if !has then
          (.error (.newErr "key for worker not found in local wallet"), { m with worker := worker })
        else
          (.ok (), { m with worker := worker })

/-- Result of `(*Miner).Run`: the returned error, the miner state, and
which background goroutines were spawned (`go fps.run(ctx)` for the fpost
scheduling loop, `go m.fillData()` for the capacity filler). -/
structure RunResult where
  result : Except GoError Unit
  miner : Miner
  fpostLoopStarted : Bool
  fillDataLoopStarted : Bool
deriving Repr

/-- `(*Miner).Run`: run the preflight checks; on failure return
`xerrors.Errorf("miner preflight checks failed: %w", err)` without
spawning any loop or assigning `m.sealing` / `m.dataTiker`; on success
construct the sealing component and the 120s ticker and spawn both loops. -/
def Miner.Run (api : StorageMinerApi) (m : Miner) : RunResult :=
  match (Miner.runPreflightChecks api m).1 with
  | .error e =>
      { result := .error (.wrapErr "miner preflight checks failed" e),
        miner := (Miner.runPreflightChecks api m).2,
        fpostLoopStarted := false, fillDataLoopStarted := false }
  | .ok _ =>
      { result := .ok (),
        miner := { (Miner.runPreflightChecks api m).2 with sealingSet := true, dataTikerSet := true },
        fpostLoopStarted := true, fillDataLoopStarted := true }

/-- One iteration of the `(*Miner).fillData` loop body (one ticker tick):
read the capacity signal; if `GetFreeWorkers() > 0 && !Busy()` then call
`PledgeSector()` once, otherwise do nothing. The returned trace records
the capacity query and every pledge call made on this tick. -/
def fillDataTick (sb : SectorBuilder) : List Action :=
  if sb.getFreeWorkers > 0 && !sb.busy then
    [Action.queryCapacity, Action.pledgeSector]
  else
    [Action.queryCapacity]

/-- Which of the two `select` cases of `Stop` fires first: the `m.stopped`
channel being closed (all loops confirmed termination) or `ctx.Done()`
(the caller-supplied deadline/cancellation, carrying `ctx.Err()`). -/
inductive StopEvent where
  | loopsTerminated
  | ctxDone (code : Nat)
deriving DecidableEq, Repr

/-- Outcome of `(*Miner).Stop`: normal return value, or a Go runtime
panic. -/
inductive StopOutcome where
  | ok
  | err (e : GoError)
  | panicked (msg : String)
deriving DecidableEq, Repr

/-- `(*Miner).Stop`: `defer m.sealing.Stop(ctx)` (runs last, recorded as
`Action.sealingStop`); `m.dataTiker.Stop()`; `close(m.stop)`; then
`select` on `m.stopped` vs `ctx.Done()`. If `Run` never completed
successfully, `m.dataTiker` is nil and `m.dataTiker.Stop()` panics with a
nil-pointer dereference (and the deferred `m.sealing.Stop` on the nil
`m.sealing` would panic too). If `Stop` already ran once, `close(m.stop)`
panics with "close of closed channel". The trace records the order of the
effects; the `StopEvent` argument resolves the `select`. -/
def Miner.Stop (m : Miner) (ev : StopEvent) : StopOutcome × Miner × List Action :=
  if m.dataTikerSet = false then
    (.panicked "invalid memory address or nil pointer dereference", m, [])
  else if m.stopClosed then
    (.panicked "close of closed channel", m, [Action.stopTicker])
  else
    match ev with
    | .loopsTerminated =>
        (.ok, { m with stopClosed := true },
         [Action.stopTicker, Action.closeStopChannel, Action.waitForLoops, Action.sealingStop])
    | .ctxDone c =>
        (.err (.ctxErr c), { m with stopClosed := true },
         [Action.stopTicker, Action.closeStopChannel, Action.waitForLoops, Action.sealingStop])

/-- The Election-PoSt adapter `SectorBuilderEpp`: wraps a sector builder. -/
structure SectorBuilderEpp where
  sb : SectorBuilder

/-- `NewElectionPoStProver`. -/
def NewElectionPoStProver (sb : SectorBuilder) : SectorBuilderEpp := ⟨sb⟩

/-- The 32-byte buffer built by `var randbuf [32]byte; copy(randbuf[:], rand)`:
`copy` writes `min (rand.length) 32` bytes, the rest stay zero. -/
def randBuf32 (rand : Bytes) : Bytes :=
  rand.take 32 ++ List.replicate (32 - rand.length) 0

/-- `(*SectorBuilderEpp).GenerateCandidates`: build the 32-byte randomness
buffer, then call `sb.GenerateEPostCandidates(ssi, randbuf, faults)` with
the always-empty fault list (`var faults []uint64 // TODO`); return the
candidates or the call's error as-is. The call list records the exact
forwarded arguments. -/
def SectorBuilderEpp.GenerateCandidates (epp : SectorBuilderEpp)
    (ssi : SortedPublicSectorInfo) (rand : Bytes) :
    Except GoError (List EPostCandidate) × List SbCall :=
  match epp.sb.generateEPostCandidates ssi (randBuf32 rand) [] with
  | .error e => (.error e, [SbCall.genCandidates ssi (randBuf32 rand) []])
  | .ok cds => (.ok cds, [SbCall.genCandidates ssi (randBuf32 rand) []])

/-- The sentinel proof `[]byte("valid proof")` returned in insecure mode. -/
def insecureSentinelProof : Bytes := "valid proof".data.map Char.toNat

/-- `(*SectorBuilderEpp).ComputeProof`: if `build.InsecurePoStValidation`
(a process-wide flag, passed here explicitly) is set, return the sentinel
proof without any sector-service call; otherwise call
`sb.ComputeElectionPoSt(ssi, rand, winners)` and return its proof bytes or
its error as-is. The call list records the exact forwarded arguments. -/
def SectorBuilderEpp.ComputeProof (insecurePoStValidation : Bool)
    (epp : SectorBuilderEpp) (ssi : SortedPublicSectorInfo) (rand : Bytes)
    (winners : List EPostCandidate) : Except GoError Bytes × List SbCall :=
  if insecurePoStValidation then
    (.ok insecureSentinelProof, [])
  else
    match epp.sb.computeElectionPoSt ssi rand winners with
    | .error e => (.error e, [SbCall.computePoSt ssi rand winners])
    | .ok proof => (.ok proof, [SbCall.computePoSt ssi rand winners])

/- Concrete oracle instances used by witnesses and counterexamples. -/

/-- A sector builder whose proving calls succeed, with three free workers
and not busy. -/
def sbOkSvc : SectorBuilder :=
  { getFreeWorkers := 3, busy := false,
    generateEPostCandidates := fun _ _ _ => .ok [0],
    computeElectionPoSt := fun _ _ _ => .ok [1, 2, 3] }

/-- A sector builder whose proving calls fail with the underlying service
error `svcErr 7`, with no free workers and busy. -/
def sbErrSvc : SectorBuilder :=
  { getFreeWorkers := 0, busy := true,
    generateEPostCandidates := fun _ _ _ => .error (.svcErr 7),
    computeElectionPoSt := fun _ _ _ => .error (.svcErr 7) }

/-- Adapter over `sbOkSvc`. -/
def eppOk : SectorBuilderEpp := NewElectionPoStProver sbOkSvc

/-- Adapter over `sbErrSvc`. -/
def eppErr : SectorBuilderEpp := NewElectionPoStProver sbErrSvc

/-- Chain query fails. -/
def apiChainFail : StorageMinerApi :=
  { stateMinerWorker := fun _ => .error (.chainErr 3), walletHas := fun _ => .ok true }

/-- Chain query resolves the worker to address 2; wallet has no key. -/
def apiNoKey : StorageMinerApi :=
  { stateMinerWorker := fun _ => .ok 2, walletHas := fun _ => .ok false }

/-- Chain query resolves the worker to address 2; the wallet query itself
fails. -/
def apiWalletErr : StorageMinerApi :=
  { stateMinerWorker := fun _ => .ok 2, walletHas := fun _ => .error (.chainErr 5) }

/-- Chain query resolves the worker to address 2; wallet has the key. -/
def apiGood : StorageMinerApi :=
  { stateMinerWorker := fun _ => .ok 2, walletHas := fun _ => .ok true }

/-- A miner whose `Run` completed successfully and on which `Stop` has not
been called. -/
def minerStarted : Miner :=
  { maddr := 1, worker := 2, dataTikerSet := true, sealingSet := true, stopClosed := false }

/-- A started miner on which `Stop` has already closed the stop channel. -/
def minerStopped : Miner :=
  { maddr := 1, worker := 2, dataTikerSet := true, sealingSet := true, stopClosed := true }

/-- A fresh miner whose worker field holds a stale previous value 9. -/
def miner9 : Miner :=
  { maddr := 1, worker := 9, dataTikerSet := false, sealingSet := false, stopClosed := false }

/-! Theorems. -/

/-- C2: with the insecure-test flag enabled, `ComputeProof` returns the
fixed sentinel bytes `[]byte("valid proof")` with no error, and the
sector-service call list is empty — the Sector Service's proof computation
is never invoked — for every sector info, randomness and candidate set. -/
theorem ComputeProof_insecure_mode (epp : SectorBuilderEpp)
    (ssi : SortedPublicSectorInfo) (rand : Bytes) (winners : List EPostCandidate) :
    SectorBuilderEpp.ComputeProof true epp ssi rand winners =
      (Except.ok insecureSentinelProof, ([] : List SbCall)) ∧
    insecureSentinelProof = [118, 97, 108, 105, 100, 32, 112, 114, 111, 111, 102] := by
  constructor
  · rfl
  · decide

/-- C3: with the insecure-test flag disabled, `ComputeProof` makes exactly
one sector-service call, with its sector info, randomness and winners
forwarded unchanged, and its result is exactly the service's result:
the proof bytes unchanged on success, the failure (with no proof bytes)
on error. -/
theorem ComputeProof_normal_mode (epp : SectorBuilderEpp)
    (ssi : SortedPublicSectorInfo) (rand : Bytes) (winners : List EPostCandidate) :
    SectorBuilderEpp.ComputeProof false epp ssi rand winners =
      (epp.sb.computeElectionPoSt ssi rand winners, [SbCall.computePoSt ssi rand winners]) := by
  unfold SectorBuilderEpp.ComputeProof
  cases epp.sb.computeElectionPoSt ssi rand winners <;> simp

/-- C7 (counterexample): `GenerateCandidates` does not wrap the underlying
service error. With a sector builder failing with the underlying error
`svcErr 7`, the adapter returns exactly `svcErr 7`, which is not a
`wrapErr` (the file's only wrapping construct, `xerrors.Errorf` with
`%w`), so the claim that the failure is "a CandidateGenerationError
wrapping the underlying service error" is false at this input. -/
theorem GenerateCandidates_no_wrap_cex :
    (SectorBuilderEpp.GenerateCandidates eppErr 0 []).1 = Except.error (GoError.svcErr 7) ∧
    GoError.isWrap (GoError.svcErr 7) = false := by
  constructor
  · rfl
  · rfl

/-- C7 (amended): `GenerateCandidates` makes exactly one sector-service
call, forwarding the sector info, the 32-byte randomness buffer and the
explicitly empty fault set; on success it returns the candidates, and on
underlying failure it propagates the underlying service error unchanged
(not wrapped) with no candidate results. -/
theorem GenerateCandidates_forwarding (epp : SectorBuilderEpp)
    (ssi : SortedPublicSectorInfo) (rand : Bytes) :
    SectorBuilderEpp.GenerateCandidates epp ssi rand =
      (epp.sb.generateEPostCandidates ssi (randBuf32 rand) [],
       [SbCall.genCandidates ssi (randBuf32 rand) []]) := by
  unfold SectorBuilderEpp.GenerateCandidates
  cases epp.sb.generateEPostCandidates ssi (randBuf32 rand) [] <;> simp

/-- C9: the randomness buffer passed to the Sector Service is the input
truncated to its first 32 bytes and zero-padded to length 32, so only the
first 32 bytes of the randomness influence the sector-service call: two
randomness inputs with equal 32-byte prefixes produce identical
`GenerateCandidates` behavior. -/
theorem GenerateCandidates_rand_window (epp : SectorBuilderEpp)
    (ssi : SortedPublicSectorInfo) (r1 r2 : Bytes)
    (h : r1.take 32 = r2.take 32) :
    randBuf32 r1 = r1.take 32 ++ List.replicate (32 - r1.length) 0 ∧
    (32 ≤ r1.length → randBuf32 r1 = r1.take 32) ∧
    (r1.length ≤ 32 → randBuf32 r1 = r1 ++ List.replicate (32 - r1.length) 0) ∧
    SectorBuilderEpp.GenerateCandidates epp ssi r1 =
      SectorBuilderEpp.GenerateCandidates epp ssi r2 := by
  have hlen : min 32 r1.length = min 32 r2.length := by
    have := congrArg List.length h
    simpa [List.length_take] using this
  have hsub : 32 - r1.length = 32 - r2.length := by omega
  have hbuf : randBuf32 r1 = randBuf32 r2 := by
    unfold randBuf32
    rw [h, hsub]
  refine ⟨rfl, ?_, ?_, ?_⟩
  · intro h32
    unfold randBuf32
    have : 32 - r1.length = 0 := by omega
    rw [this]
    simp
  · intro h32
    unfold randBuf32
    rw [List.take_of_length_le h32]
  · unfold SectorBuilderEpp.GenerateCandidates
    rw [hbuf]

/-- C9 (witness): a 33-byte randomness and a 34-byte randomness agreeing
on their first 32 bytes: the buffer is the 32-byte truncation and the two
adapter calls coincide. -/
theorem GenerateCandidates_rand_window_witness :
    randBuf32 (List.replicate 33 1) = (List.replicate 33 1).take 32 ∧
    SectorBuilderEpp.GenerateCandidates eppOk 0 (List.replicate 33 1) =
      SectorBuilderEpp.GenerateCandidates eppOk 0 (List.replicate 32 1 ++ [2, 3]) := by
  have h := GenerateCandidates_rand_window eppOk 0 (List.replicate 33 1)
      (List.replicate 32 1 ++ [2, 3]) (by decide)
  exact ⟨h.2.1 (by decide), h.2.2.2⟩

/-- Helper: the preflight checks only ever touch the `worker` field of the
miner state; every other field is preserved in every branch. -/
theorem runPreflightChecks_preserves_flags (api : StorageMinerApi) (m : Miner) :
    (Miner.runPreflightChecks api m).2.dataTikerSet = m.dataTikerSet ∧
    (Miner.runPreflightChecks api m).2.sealingSet = m.sealingSet ∧
    (Miner.runPreflightChecks api m).2.stopClosed = m.stopClosed ∧
    (Miner.runPreflightChecks api m).2.maddr = m.maddr := by
  unfold Miner.runPreflightChecks
  cases hc : api.stateMinerWorker m.maddr with
  | error e => simp
  | ok worker =>
    cases hw : api.walletHas worker with
    | error e => simp [hw]
    | ok has => cases has <;> simp [hw]

/-- C4: on a single `fillData` tick, if the sector service is busy then no
pledge call is made regardless of the free-worker count; if there is at
least one free worker and the service is not busy then exactly one pledge
call is made; and in every case at most one pledge call is made. -/
theorem fillDataTick_pledge_count (sb : SectorBuilder) :
    (sb.busy = true → (fillDataTick sb).count Action.pledgeSector = 0) ∧
    (0 < sb.getFreeWorkers → sb.busy = false →
        (fillDataTick sb).count Action.pledgeSector = 1) ∧
    (fillDataTick sb).count Action.pledgeSector ≤ 1 := by
  unfold fillDataTick
  refine ⟨?_, ?_, ?_⟩
  · intro hb
    simp [hb]
  · intro hf hb
    simp [hb, hf]
  · by_cases hc : (sb.getFreeWorkers > 0 && !sb.busy) = true <;> simp [hc]

/-- C4 (witness): a busy service (free workers 0) yields zero pledges; an
idle service with three free workers yields exactly one pledge. -/
theorem fillDataTick_pledge_count_witness :
    (fillDataTick sbErrSvc).count Action.pledgeSector = 0 ∧
    (fillDataTick sbOkSvc).count Action.pledgeSector = 1 := by
  refine ⟨(fillDataTick_pledge_count sbErrSvc).1 rfl, ?_⟩
  exact (fillDataTick_pledge_count sbOkSvc).2.1 (by decide) rfl

/-- C5: when the preflight checks fail, `Run` returns that failure wrapped
as "miner preflight checks failed" (the PreflightError), starts neither
the fpost scheduling loop nor the capacity-filler loop, and leaves the
started-state fields (`dataTiker`, `sealing`) exactly as they were — a
never-started miner remains in the Created state. -/
theorem Run_preflight_failure (api : StorageMinerApi) (m : Miner) (e : GoError)
    (h : (Miner.runPreflightChecks api m).1 = Except.error e) :
    (Miner.Run api m).result =
      Except.error (GoError.wrapErr "miner preflight checks failed" e) ∧
    (Miner.Run api m).fpostLoopStarted = false ∧
    (Miner.Run api m).fillDataLoopStarted = false ∧
    (Miner.Run api m).miner.dataTikerSet = m.dataTikerSet ∧
    (Miner.Run api m).miner.sealingSet = m.sealingSet := by
  have hp := runPreflightChecks_preserves_flags api m
  unfold Miner.Run
  rw [h]
  exact ⟨rfl, rfl, rfl, hp.1, hp.2.1⟩

/-- C5 (witness): with a failing chain query and a fresh miner, `Run`
fails with the wrapped preflight error, no loop is started, and the
miner's started-state fields are still unset. -/
theorem Run_preflight_failure_witness :
    (Miner.Run apiChainFail (Miner.new 1)).result =
      Except.error (GoError.wrapErr "miner preflight checks failed" (GoError.chainErr 3)) ∧
    (Miner.Run apiChainFail (Miner.new 1)).fpostLoopStarted = false ∧
    (Miner.Run apiChainFail (Miner.new 1)).fillDataLoopStarted = false ∧
    (Miner.Run apiChainFail (Miner.new 1)).miner.dataTikerSet = false ∧
    (Miner.Run apiChainFail (Miner.new 1)).miner.sealingSet = false := by
  have h := Run_preflight_failure apiChainFail (Miner.new 1) (GoError.chainErr 3) rfl
  exact h

/-- C6 (counterexample): the claim's case split is not exhaustive. With an
oracle whose chain query succeeds (so the WorkerResolutionError case does
not apply) but whose wallet query itself fails, the preflight checks
return the wallet-check error wrapped as
"failed to check wallet for worker key" — neither success nor the
key-absent ("key for worker not found in local wallet") error — so
"otherwise it succeeds" is false at this input. -/
theorem runPreflightChecks_wallet_error_cex :
    apiWalletErr.stateMinerWorker 1 = Except.ok 2 ∧
    (Miner.runPreflightChecks apiWalletErr (Miner.new 1)).1 =
      Except.error (GoError.wrapErr "failed to check wallet for worker key" (GoError.chainErr 5)) ∧
    (Miner.runPreflightChecks apiWalletErr (Miner.new 1)).1 ≠ Except.ok () ∧
    (Miner.runPreflightChecks apiWalletErr (Miner.new 1)).1 ≠
      Except.error (GoError.newErr "key for worker not found in local wallet") := by
  refine ⟨rfl, rfl, ?_, ?_⟩ <;> intro hcontra <;> simp [Miner.runPreflightChecks, apiWalletErr] at hcontra

/-- C6 (amended): the preflight checks query the chain for the worker
address and then the wallet for a key; they propagate the chain error
exactly when the chain query fails, fail with the wallet-check error
wrapping the underlying wallet failure exactly when the chain query
succeeds but the wallet query itself fails, fail with
"key for worker not found in local wallet" (UnauthorizedWorker) exactly
when both queries succeed and the key is absent, and succeed otherwise. -/
theorem runPreflightChecks_outcomes (api : StorageMinerApi) (m : Miner) :
    (∀ e, api.stateMinerWorker m.maddr = Except.error e →
        (Miner.runPreflightChecks api m).1 = Except.error e) ∧
    (∀ w e, api.stateMinerWorker m.maddr = Except.ok w →
        api.walletHas w = Except.error e →
        (Miner.runPreflightChecks api m).1 =
          Except.error (GoError.wrapErr "failed to check wallet for worker key" e)) ∧
    (∀ w, api.stateMinerWorker m.maddr = Except.ok w →
        api.walletHas w = Except.ok false →
        (Miner.runPreflightChecks api m).1 =
          Except.error (GoError.newErr "key for worker not found in local wallet")) ∧
    (∀ w, api.stateMinerWorker m.maddr = Except.ok w →
        api.walletHas w = Except.ok true →
        (Miner.runPreflightChecks api m).1 = Except.ok ()) := by
  refine ⟨?_, ?_, ?_, ?_⟩
  · intro e he
    simp [Miner.runPreflightChecks, he]
  · intro w e hw he
    simp [Miner.runPreflightChecks, hw, he]
  · intro w hw hk
    simp [Miner.runPreflightChecks, hw, hk]
  · intro w hw hk
    simp [Miner.runPreflightChecks, hw, hk]

/-- C6 (witness): the four outcomes at concrete oracles. -/
theorem runPreflightChecks_outcomes_witness :
    (Miner.runPreflightChecks apiChainFail (Miner.new 1)).1 =
      Except.error (GoError.chainErr 3) ∧
    (Miner.runPreflightChecks apiWalletErr (Miner.new 1)).1 =
      Except.error (GoError.wrapErr "failed to check wallet for worker key" (GoError.chainErr 5)) ∧
    (Miner.runPreflightChecks apiNoKey (Miner.new 1)).1 =
      Except.error (GoError.newErr "key for worker not found in local wallet") ∧
    (Miner.runPreflightChecks apiGood (Miner.new 1)).1 = Except.ok () := by
  refine ⟨?_, ?_, ?_, ?_⟩
  · exact (runPreflightChecks_outcomes apiChainFail (Miner.new 1)).1 (GoError.chainErr 3) rfl
  · exact (runPreflightChecks_outcomes apiWalletErr (Miner.new 1)).2.1 2 (GoError.chainErr 5) rfl rfl
  · exact (runPreflightChecks_outcomes apiNoKey (Miner.new 1)).2.2.1 2 rfl rfl
  · exact (runPreflightChecks_outcomes apiGood (Miner.new 1)).2.2.2 2 rfl rfl

/-- C10: the preflight checks assign the resolved worker address to the
miner's worker field before the wallet-key check, so when the chain query
succeeds, the wallet lacks the key and preflight (hence `Run`) fails, the
worker field nonetheless holds the newly resolved address. -/
theorem runPreflightChecks_worker_mutation (api : StorageMinerApi) (m : Miner)
    (w : Address) (hch : api.stateMinerWorker m.maddr = Except.ok w)
    (hkey : api.walletHas w = Except.ok false) :
    (Miner.runPreflightChecks api m).1 =
      Except.error (GoError.newErr "key for worker not found in local wallet") ∧
    (Miner.runPreflightChecks api m).2.worker = w ∧
    (Miner.Run api m).result =
      Except.error (GoError.wrapErr "miner preflight checks failed"
        (GoError.newErr "key for worker not found in local wallet")) ∧
    (Miner.Run api m).miner.worker = w := by
  have h1 : (Miner.runPreflightChecks api m).1 =
      Except.error (GoError.newErr "key for worker not found in local wallet") := by
    simp [Miner.runPreflightChecks, hch, hkey]
  have h2 : (Miner.runPreflightChecks api m).2.worker = w := by
    simp [Miner.runPreflightChecks, hch, hkey]
  refine ⟨h1, h2, ?_, ?_⟩
  · unfold Miner.Run
    rw [h1]
  · unfold Miner.Run
    rw [h1]
    exact h2

/-- C10 (witness): a miner whose worker field holds the stale value 9,
against an oracle resolving the worker to 2 with no wallet key: the failed
`Run` leaves the worker field changed from 9 to 2. -/
theorem runPreflightChecks_worker_mutation_witness :
    miner9.worker = 9 ∧
    (Miner.runPreflightChecks apiNoKey miner9).2.worker = 2 ∧
    (Miner.Run apiNoKey miner9).result =
      Except.error (GoError.wrapErr "miner preflight checks failed"
        (GoError.newErr "key for worker not found in local wallet")) ∧
    (Miner.Run apiNoKey miner9).miner.worker = 2 := by
  have h := runPreflightChecks_worker_mutation apiNoKey miner9 2 rfl rfl
  exact ⟨rfl, h.2.1, h.2.2.1, h.2.2.2⟩

/-- C1 (counterexample): calling `Stop` on a freshly constructed miner on
which `Run` never ran panics with a nil-pointer dereference
(`m.dataTiker.Stop()` on the nil ticker) instead of failing with an
InvalidState error — no InvalidState error return exists in the code. -/
theorem Stop_before_Run_panics_cex :
    (Miner.Stop (Miner.new 1) StopEvent.loopsTerminated).1 =
      StopOutcome.panicked "invalid memory address or nil pointer dereference" := by
  rfl

/-- C1 (amended): calling `Stop` on a miner on which `Run` has not
completed successfully (nil ticker), or on which `Stop` has already closed
the stop channel, panics (Go runtime nil-pointer dereference, or
"close of closed channel") rather than returning an InvalidState error or
succeeding. -/
theorem Stop_misuse_panics (m : Miner) (ev : StopEvent)
    (h : m.dataTikerSet = false ∨ m.stopClosed = true) :
    ∃ msg, (Miner.Stop m ev).1 = StopOutcome.panicked msg := by
  rcases h with h | h
  · exact ⟨"invalid memory address or nil pointer dereference", by simp [Miner.Stop, h]⟩
  · cases hd : m.dataTikerSet
    · exact ⟨"invalid memory address or nil pointer dereference", by simp [Miner.Stop, hd]⟩
    · exact ⟨"close of closed channel", by simp [Miner.Stop, hd, h]⟩

/-- C1 (witness): a second `Stop` on an already-stopped miner panics. -/
theorem Stop_misuse_panics_witness :
    minerStopped.stopClosed = true ∧
    (∃ msg, (Miner.Stop minerStopped (StopEvent.ctxDone 0)).1 = StopOutcome.panicked msg) := by
  exact ⟨rfl, Stop_misuse_panics minerStopped (StopEvent.ctxDone 0) (Or.inr rfl)⟩

/-- C8: on a running miner (started, not yet stopped), `Stop` stops the
capacity-fill ticker and closes the stop channel — both strictly before
waiting for loop termination — then blocks; it returns success exactly
when the loops confirm termination first and the context's error (the
shutdown-timeout outcome) exactly when the caller-supplied
deadline/cancellation fires first; it records the shutdown as begun
(`stopClosed`), and its trace starts no new work: no pledge call occurs. -/
theorem Stop_running_behavior (m : Miner) (ev : StopEvent)
    (ht : m.dataTikerSet = true) (hs : m.stopClosed = false) :
    (Miner.Stop m ev).2.2 =
      [Action.stopTicker, Action.closeStopChannel, Action.waitForLoops, Action.sealingStop] ∧
    (Miner.Stop m ev).2.2.indexOf Action.stopTicker <
      (Miner.Stop m ev).2.2.indexOf Action.waitForLoops ∧
    (Miner.Stop m ev).2.2.indexOf Action.closeStopChannel <
      (Miner.Stop m ev).2.2.indexOf Action.waitForLoops ∧
    Action.pledgeSector ∉ (Miner.Stop m ev).2.2 ∧
    (ev = StopEvent.loopsTerminated → (Miner.Stop m ev).1 = StopOutcome.ok) ∧
    (∀ c, ev = StopEvent.ctxDone c →
        (Miner.Stop m ev).1 = StopOutcome.err (GoError.ctxErr c)) ∧
    (Miner.Stop m ev).2.1.stopClosed = true := by
  have htr : (Miner.Stop m ev).2.2 =
      [Action.stopTicker, Action.closeStopChannel, Action.waitForLoops, Action.sealingStop] := by
    cases ev <;> simp [Miner.Stop, ht, hs]
  refine ⟨htr, ?_, ?_, ?_, ?_, ?_, ?_⟩
  · rw [htr]; decide
  · rw [htr]; decide
  · rw [htr]; decide
  · intro hev
    subst hev
    simp [Miner.Stop, ht, hs]
  · intro c hev
    subst hev
    simp [Miner.Stop, ht, hs]
  · cases ev <;> simp [Miner.Stop, ht, hs]

/-- C8 (witness): stopping a running miner when the caller's deadline
fires first returns the context error, after having stopped the ticker and
closed the stop channel before waiting, with no pledge in the trace. -/
theorem Stop_running_behavior_witness :
    (Miner.Stop minerStarted (StopEvent.ctxDone 4)).2.2 =
      [Action.stopTicker, Action.closeStopChannel, Action.waitForLoops, Action.sealingStop] ∧
    Action.pledgeSector ∉ (Miner.Stop minerStarted (StopEvent.ctxDone 4)).2.2 ∧
    (Miner.Stop minerStarted (StopEvent.ctxDone 4)).1 =
      StopOutcome.err (GoError.ctxErr 4) ∧
    (Miner.Stop minerStarted (StopEvent.ctxDone 4)).2.1.stopClosed = true := by
  have h := Stop_running_behavior minerStarted (StopEvent.ctxDone 4) rfl rfl
  exact ⟨h.1, h.2.2.2.1, h.2.2.2.2.2.1 4 rfl, h.2.2.2.2.2.2⟩

end StorageMiner
